import Mathlib

/-!
Shallow embedding of `cloudinit/sources/helpers/vultr.py` (Vultr datasource
helpers of cloud-init) and proofs about its behaviour.

Conventions of the embedding:
* Python strings are Lean `String`s (compared and sliced via their `List Char`
  data).
* Python exceptions are modelled by `Except PyErr`; each constructor of
  `PyErr` names the Python exception class raised by the corresponding
  source line.
* Filesystem and network effects are modelled by explicit parameters:
  the contents of `/proc/cmdline` is an `Option String` (`none` = the file
  does not exist), the cache file `/etc/vultr/cache/network` is an
  `Option String`, the HTTP transport `url_helper.readurl` (together with
  its `response.ok()` check in `read_metadata`) is a function
  `String → Except PyErr String` from the requested URL to the decoded body,
  the OS query `net.get_interfaces_by_mac` is an association list, and the
  stdlib `json.loads`/`json.dumps` calls are function parameters.
* The module-level caches `METADATA` and `MAC_TO_NICS` are threaded as
  explicit state (`Option _` values, `none` = the Python global is `None`).
* Where a count of performed network or OS requests matters, the embedding
  returns it alongside the Python value.
-/

namespace VultrHelpers

/-- Python exceptions that the embedded code can raise.
`nameError` models `NameError` (an unbound name such as `os`, which the
module never imports — it only does `from os import path`); `keyError`
models `KeyError` on a missing dict key; `indexError` models `IndexError`
on out-of-range string indexing; `runtimeError` models the
`RuntimeError(...)` raises in the source; `unicodeEncodeError` models
`UnicodeEncodeError` from `str.encode("ascii")` on non-ASCII input. -/
inductive PyErr where
  | nameError
  | keyError
  | indexError
  | runtimeError
  | unicodeEncodeError
  deriving Repr, DecidableEq

/-- `listStartsWith needle hay` : does `hay` start with `needle`? -/
def listStartsWith : List Char → List Char → Bool
  | [], _ => true
  | _ :: _, [] => false
  | a :: as, b :: bs => (a = b) && listStartsWith as bs

/-- Substring search on character lists (Python `needle in hay` on `str`). -/
def listContainsSub (needle : List Char) : List Char → Bool
  | [] => listStartsWith needle []
  | c :: t => listStartsWith needle (c :: t) || listContainsSub needle t

/-- Python's `needle in hay` for strings: substring containment. -/
def pyIn (needle hay : String) : Bool :=
  listContainsSub needle.data hay.data

/-- The module-level `API_MAP` dict: metadata flag → endpoint path.
Insertion order as in the source. -/
def API_MAP : List (String × String) :=
  [ ("startup-script", "/latest/startup-script"),
    ("hostname", "/latest/meta-data/hostname"),
    ("user-data", "/latest/user-data"),
    ("mdisk-mode", "/v1/internal/mdisk-mode"),
    ("root-password", "/v1/internal/root-password"),
    ("ssh-keys", "/current/ssh-keys"),
    ("ipv6-dns1", "/current/ipv6-dns1"),
    ("ipv6-addr", "/current/meta-data/ipv6-addr"),
    ("v1.json", "/v1.json") ]

/-- Dict membership / lookup for the association lists we use for dicts. -/
def dictGet (d : List (String × String)) (k : String) : Option String :=
  (d.find? (fun p => p.1 == k)).map (fun p => p.2)

/-- `get_url(url, flag)`: translate a metadata flag to a full endpoint URL.
Mirrors the source: exact `API_MAP` lookup first, then the substring test
`"app-" in flag or "md-" in flag`, else the empty string. -/
def get_url (url : String) (flag : String) : String :=
  match dictGet API_MAP flag with
  | some path => url ++ path
  | none =>
      if pyIn "app-" flag || pyIn "md-" flag then
        url ++ "/v1/internal/" ++ flag
      else
        ""

/-- `fetch_metadata(flag, params)`.  `http` models `read_metadata` (the
`url_helper.readurl` transport plus the `response.ok()` check): it maps the
requested URL to the decoded body or to the raised error.  The second
component of the result is the list of URLs actually requested over the
network, in order. -/
def fetch_metadata (http : String → Except PyErr String)
    (url : String) (flag : String) :
    Except PyErr String × List String :=
  let req_url := get_url url flag
  if req_url = "" then
    (Except.error PyErr.runtimeError, [])
  else
    (http req_url, [req_url])

/-- The `ipv4` block of an interface entry of the `v1.json` document. -/
structure IPv4Block where
  address : String
  gateway : String
  netmask : String
  deriving Repr, DecidableEq

/-- One entry of `v1.json`'s `interfaces` list (the fields the code reads). -/
structure Interface where
  mac : String
  ipv4 : IPv4Block
  deriving Repr, DecidableEq

/-- The parsed `v1.json` document (the field the code reads). -/
structure V1Doc where
  interfaces : List Interface
  deriving Repr, DecidableEq

/-- The `METADATA` dict assembled by `get_metadata`: the nine fetched
fields, with `v1` already parsed by `json.loads`. -/
structure Metadata where
  startup_script : String
  hostname : String
  user_data : String
  mdisk_mode : String
  root_password : String
  ssh_keys : String
  ipv6_dns1 : String
  ipv6_addr : String
  v1 : V1Doc
  deriving Repr, DecidableEq

/-- Monad for the metadata assembly: exceptions plus a count of network
requests performed (the state). -/
abbrev FetchM := ExceptT PyErr (StateM Nat)

/-- Run one `fetch_metadata` call inside `FetchM`, recording the number of
network requests it performed and re-raising its error, if any. -/
def fetchM (http : String → Except PyErr String) (url flag : String) :
    FetchM String := do
  let (r, reqs) := fetch_metadata http url flag
  modify (fun n => n + reqs.length)
  match r with
  | Except.ok s => pure s
  | Except.error e => throw e

/-- The dict literal assigned to `METADATA` in `get_metadata`, evaluated
field by field in source order; `parse` models `json.loads`.  Any raised
exception aborts the whole literal (so the assignment never happens). -/
def assemble_metadata (http : String → Except PyErr String)
    (parse : String → Except PyErr V1Doc) (url : String) : FetchM Metadata := do
  let startup_script ← fetchM http url "startup-script"
  let hostname ← fetchM http url "hostname"
  let user_data ← fetchM http url "user-data"
  let mdisk_mode ← fetchM http url "mdisk-mode"
  let root_password ← fetchM http url "root-password"
  let ssh_keys ← fetchM http url "ssh-keys"
  let ipv6_dns1 ← fetchM http url "ipv6-dns1"
  let ipv6_addr ← fetchM http url "ipv6-addr"
  let v1_raw ← fetchM http url "v1.json"
  let v1 ← match parse v1_raw with
    | Except.ok d => pure d
    | Except.error e => throw e
  pure { startup_script := startup_script, hostname := hostname,
         user_data := user_data, mdisk_mode := mdisk_mode,
         root_password := root_password, ssh_keys := ssh_keys,
         ipv6_dns1 := ipv6_dns1, ipv6_addr := ipv6_addr, v1 := v1 }

/-- `get_metadata(params)` with the global `METADATA` threaded explicitly.
`METADATA` is only ever assigned the full nine-key dict, which is truthy,
so `if not METADATA` is `true` exactly on `none`.  Result: the Python
return value (or raised error), the new value of the global, and the number
of network requests performed. -/
def get_metadata (http : String → Except PyErr String)
    (parse : String → Except PyErr V1Doc) (url : String)
    (METADATA : Option Metadata) :
    (Except PyErr Metadata × Option Metadata) × Nat :=
  match METADATA with
  | some md => ((Except.ok md, some md), 0)
  | none =>
      match (assemble_metadata http parse url).run.run 0 with
      | (Except.ok md, n) => ((Except.ok md, some md), n)
      | (Except.error e, n) => ((Except.error e, none), n)

/-- Dict lookup in the MAC → NIC-name mapping. -/
def lookupMac (m : List (String × String)) (mac : String) : Option String :=
  dictGet m mac

/-- `get_interface_name(mac)` with the global `MAC_TO_NICS` threaded
explicitly.  `os_query` models `net.get_interfaces_by_mac()`.  Python's
`if not MAC_TO_NICS` is true when the global is `None` *or* an empty dict,
and in that case the mapping is (re)built by querying the OS.  Result: the
Python return value, the new value of the global, and the number of OS
queries performed. -/
def get_interface_name (os_query : List (String × String))
    (MAC_TO_NICS : Option (List (String × String))) (mac : String) :
    Option String × Option (List (String × String)) × Nat :=
  let (m, queries) :=
    match MAC_TO_NICS with
    | none => (os_query, 1)
    | some m => if m = [] then (os_query, 1) else (m, 0)
  (lookupMac m mac, some m, queries)

/-- A subnet dict of the generated network config.  The source builds three
shapes of subnet dicts; absent keys are `none` here.  Key order in the
source literals is: `type`, `control`, `address`, `gateway`, `netmask`. -/
structure Subnet where
  type : String
  control : String
  address : Option String
  gateway : Option String
  netmask : Option String
  deriving Repr, DecidableEq

/-- One entry of the generated `network["config"]` list: either the fixed
nameserver dict or a physical-interface dict (`accept-ra` is modelled by
the field `accept_ra`). -/
inductive NetBlock where
  | nameserver (address : List String)
  | physical (name : String) (mac_address : String) (accept_ra : Nat)
      (subnets : List Subnet)
  deriving Repr, DecidableEq

/-- The generated network dict `{"version": 1, "config": [...]}`. -/
structure NetworkConfig where
  version : Nat
  config : List NetBlock
  deriving Repr, DecidableEq

/-- The static-IPv4 subnet dict of the primary interface (keys `type`,
`control`, `address`, `gateway`, `netmask`). -/
def primary_v4_subnet (i : Interface) : Subnet :=
  { type := "static", control := "auto", address := some i.ipv4.address,
    gateway := some i.ipv4.gateway, netmask := some i.ipv4.netmask }

/-- The dhcp6 subnet dict `{"type": "dhcp6", "control": "auto"}`. -/
def dhcp6_subnet : Subnet :=
  { type := "dhcp6", control := "auto", address := none,
    gateway := none, netmask := none }

/-- The static-IPv4 subnet dict of the secondary interface: no `gateway`
key at all (keys `type`, `control`, `address`, `netmask`). -/
def secondary_v4_subnet (i : Interface) : Subnet :=
  { type := "static", control := "auto", address := some i.ipv4.address,
    gateway := none, netmask := some i.ipv4.netmask }

/-- `generate_network_config(config)`.  `nics` is the (already built)
MAC → name mapping consulted through `get_interface_name`; `md` is the
bundle returned by `get_metadata`.  Mirrors the source: start with the
fixed nameserver block, then append a physical block for `interfaces[0]`
when the list is non-empty and for `interfaces[1]` when it has at least two
entries.  The guard `if not interface_name: raise RuntimeError(...)` is a
*truthiness* test: it raises both when `get_interface_name` returned `None`
(MAC absent from the mapping) and when it returned the empty string, which
is falsy in Python. -/
def generate_network_config (nics : List (String × String)) (md : Metadata) :
    Except PyErr NetworkConfig := do
  let network0 : List NetBlock := [NetBlock.nameserver ["108.61.10.10"]]
  let network1 ←
    if h : 0 < md.v1.interfaces.length then
      let interface := md.v1.interfaces.get ⟨0, h⟩
      match lookupMac nics interface.mac with
      | none => throw PyErr.runtimeError
      | some interface_name =>
          if interface_name = "" then throw PyErr.runtimeError
          else
            pure (network0 ++
              [NetBlock.physical interface_name interface.mac 1
                [primary_v4_subnet interface, dhcp6_subnet]])
    else
      pure network0
  let network2 ←
    if h : 1 < md.v1.interfaces.length then
      let interface := md.v1.interfaces.get ⟨1, h⟩
      match lookupMac nics interface.mac with
      | none => throw PyErr.runtimeError
      | some interface_name =>
          if interface_name = "" then throw PyErr.runtimeError
          else
            pure (network1 ++
              [NetBlock.physical interface_name interface.mac 1
                [secondary_v4_subnet interface]])
    else
      pure network1
  pure { version := 1, config := network2 }

/-- Whether a string is pure ASCII (all code points below 128): exactly the
condition under which Python's `str.encode("ascii")` succeeds. -/
def isAscii (s : String) : Bool :=
  s.data.all (fun c => c.toNat < 128)

/-- The base64 alphabet. -/
def b64alphabet : List Char :=
  "ABCDEFGHIJKLMNOPQRSTUVWXYZabcdefghijklmnopqrstuvwxyz0123456789+/".data

/-- The base64 digit for a 6-bit value. -/
def b64char (n : Nat) : Char := b64alphabet.getD n 'A'

/-- Standard base64 of a byte list (values < 256), with `=` padding, as
`base64.b64encode` produces. -/
def b64encodeBytes : List Nat → List Char
  | [] => []
  | [a] => [b64char (a / 4), b64char (a % 4 * 16), '=', '=']
  | [a, b] => [b64char (a / 4), b64char (a % 4 * 16 + b / 16),
               b64char (b % 16 * 4), '=']
  | a :: b :: c :: rest =>
      b64char (a / 4) :: b64char (a % 4 * 16 + b / 16) ::
      b64char (b % 16 * 4 + c / 64) :: b64char (c % 64) ::
      b64encodeBytes rest

/-- `base64.b64encode(script.encode("ascii")).decode("ascii")`: raises
`UnicodeEncodeError` on non-ASCII input, else base64 of the ASCII bytes. -/
def b64encode_ascii (s : String) : Except PyErr String :=
  if isAscii s then
    Except.ok (String.mk (b64encodeBytes (s.data.map Char.toNat)))
  else
    Except.error PyErr.unicodeEncodeError

/-- A `write_files` entry dict, key order `encoding`, `content`, `owner`,
`path`, `permissions`. -/
structure WriteFile where
  encoding : String
  content : String
  owner : String
  path : String
  permissions : String
  deriving Repr, DecidableEq

/-- The `chpasswd` dict. -/
structure Chpasswd where
  expire : Bool
  list : List String
  deriving Repr, DecidableEq

/-- The vendor-config dict built by `generate_config`.  The base
`config_template` literal has no `write_files` and no `runcmd` key, so
those two are `Option`s (`none` = key absent). -/
structure VendorConfig where
  package_upgrade : String
  disable_root : Nat
  ssh_pwauth : Nat
  chpasswd : Chpasswd
  default_user_name : String
  network : NetworkConfig
  write_files : Option (List WriteFile)
  runcmd : Option (List String)
  deriving Repr, DecidableEq

/-- `generate_config(config)`.  Mirrors the source order: base64-encode the
startup script when non-empty (raising on non-ASCII), read the root
password, build the template (whose literal contains neither `write_files`
nor `runcmd`) around `generate_network_config`, then, when the (encoded)
script is non-empty, set `write_files` and evaluate
`config_template['runcmd'] + [...]` — a lookup of the absent `runcmd` key,
which raises `KeyError`. -/
def generate_config (nics : List (String × String)) (md : Metadata) :
    Except PyErr VendorConfig := do
  let script0 := md.startup_script
  let script ←
    if script0 ≠ "" then b64encode_ascii script0 else pure script0
  let rootpw := md.root_password
  let network ← generate_network_config nics md
  let config_template : VendorConfig :=
    { package_upgrade := "true", disable_root := 0, ssh_pwauth := 1,
      chpasswd := { expire := false, list := ["root:" ++ rootpw] },
      default_user_name := "root", network := network,
      write_files := none, runcmd := none }
  if script ≠ "" then
    let config_template :=
      { config_template with
          write_files := some
            [{ encoding := "b64", content := script, owner := "root:root",
               path := "/tmp/startup-vultr.sh", permissions := "0755" }] }
    match config_template.runcmd with
    | none => throw PyErr.keyError
    | some rc =>
        pure { config_template with
                 runcmd := some (rc ++
                   ["/tmp/startup-vultr.sh &> /var/log/vultr-boot.log",
                    "rm -f /tmp/startup-vultr.sh"]) }
  else
    pure config_template

/-- `os.makedirs("/etc/vultr/cache/", exist_ok=True)` as written in the
source.  The module's imports are `from os import path` (plus `json`, `re`,
`base64` and cloud-init modules): the name `os` is never bound, so this
expression raises `NameError` when evaluated. -/
def os_makedirs : Except PyErr Unit :=
  Except.error PyErr.nameError

/-- `get_cached_network_config()`.  `store` is the contents of
`/etc/vultr/cache/network` (`none` = no such file).  The first statement is
`os.makedirs(...)`, which raises `NameError` (see `os_makedirs`); the rest
of the body is the intended read-or-empty-string logic. -/
def get_cached_network_config (store : Option String) :
    Except PyErr String := do
  let _ ← os_makedirs
  let content := ""
  match store with
  | some c => pure c
  | none => pure content

/-- `cache_network_config(config)`.  `json_dumps` models the stdlib
`json.dumps`; the result is the new contents of the cache file.  As in
`get_cached_network_config`, the leading `os.makedirs(...)` raises
`NameError` before anything is written. -/
def cache_network_config (json_dumps : NetworkConfig → String)
    (store : Option String) (config : NetworkConfig) :
    Except PyErr (Option String) := do
  let _ ← os_makedirs
  let _ := store
  pure (some (json_dumps config))

/-- Does `"root="` occur in `s` starting at position `j`? -/
def rootEqAt (s : List Char) (j : Nat) : Bool :=
  listStartsWith "root=".data (s.drop j)

/-- No newline among `s[i..j)` — regex `.` does not match `'\n'`. -/
def noNewline (s : List Char) (i j : Nat) : Bool :=
  ((s.drop i).take (j - i)).all (fun c => c ≠ '\n')

/-- End position (exclusive) of the greedy match of the regex `.+root=`
anchored at position `i` of `s`, if any: the largest `j ≥ i + 1` with
`"root="` at `j` and no `'\n'` in `s[i..j)` gives the match `s[i..j+5)`. -/
def matchEndAt (s : List Char) (i : Nat) : Option Nat :=
  ((List.range (s.length + 1)).reverse.find? (fun j =>
      decide (i + 1 ≤ j) && rootEqAt s j && noNewline s i j)).map
    (fun j => j + 5)

/-- Leftmost (then greedy) match of `.+root=` in `s`: start and end
positions. -/
def findMatch (s : List Char) : Option (Nat × Nat) :=
  match (List.range s.length).find? (fun i => (matchEndAt s i).isSome) with
  | none => none
  | some i => (matchEndAt s i).map (fun e => (i, e))

/-- Repeated replacement of matches of `.+root=` by the empty string, as
`re.sub` performs, scanning left to right.  Every match consumes at least
six characters, so `s.length` rounds of fuel always suffice. -/
def reSubAux : Nat → List Char → List Char
  | 0, s => s
  | fuel + 1, s =>
      match findMatch s with
      | none => s
      | some (i, e) => s.take i ++ reSubAux fuel (s.drop e)

/-- `re.sub(r'.+root=', '', content)`. -/
def re_sub_root (content : String) : String :=
  String.mk (reSubAux content.data.length content.data)

/-- Python `str.isspace` characters relevant to `str.strip()`. -/
def pyIsSpace (c : Char) : Bool :=
  c = ' ' || c = '\t' || c = '\n' || c = '\r' || c = '\x0b' || c = '\x0c'

/-- Python `str.strip()`: drop leading and trailing whitespace. -/
def pyStrip (s : List Char) : List Char :=
  ((s.dropWhile pyIsSpace).reverse.dropWhile pyIsSpace).reverse

/-- `get_kernel_parameters()`.  `cmdline` is the contents of
`/proc/cmdline` (`none` = the file does not exist).  Mirrors the source:
empty string when the file is absent or contains no `"root="`; otherwise
`re.sub(r'.+root=', '', content)[1].strip()` — note the `[1]`: the
character at index 1 of the substituted string (raising `IndexError` when
it is shorter than two characters), then stripped. -/
def get_kernel_parameters (cmdline : Option String) : Except PyErr String :=
  match cmdline with
  | none => Except.ok ""
  | some content =>
      if pyIn "root=" content then
        match (re_sub_root content).data.get? 1 with
        | none => Except.error PyErr.indexError
        | some c => Except.ok (String.mk (pyStrip [c]))
      else
        Except.ok ""

/-- The dict returned by `get_sysinfo()`: the four DMI strings, each
`Option` because `dmi.read_dmi_data` may return `None`. -/
structure Sysinfo where
  manufacturer : Option String
  subid : Option String
  product : Option String
  family : Option String
  deriving Repr, DecidableEq

/-- `is_vultr()`.  `sysinfo` models `get_sysinfo()`, `cmdline` the
`/proc/cmdline` contents, and the two Booleans `path.exists("/etc/vultr")`
and `path.isdir("/etc/vultr")`.  Signals in source order with
short-circuiting; any exception from `get_kernel_parameters` propagates. -/
def is_vultr (sysinfo : Sysinfo) (cmdline : Option String)
    (etc_vultr_exists etc_vultr_isdir : Bool) : Except PyErr Bool := do
  if sysinfo.manufacturer = some "Vultr" then
    pure true
  else do
    let kp ← get_kernel_parameters cmdline
    if pyIn "vultr" kp then
      pure true
    else if etc_vultr_exists && etc_vultr_isdir then
      pure true
    else
      pure false

/-! ### Theorems -/

/-- **C2** (claim: `cache_network_config` followed by
`get_cached_network_config` round-trips the JSON text byte-for-byte, and
reading with no cache file yields the empty string).  The code cannot do
either: the module binds only `path` (via `from os import path`), so the
leading `os.makedirs("/etc/vultr/cache/", exist_ok=True)` in both functions
raises `NameError` on every call — nothing is ever written or read. -/
theorem cache_store_always_raises_c2 :
    (∀ (json_dumps : NetworkConfig → String) (store : Option String)
        (config : NetworkConfig),
        cache_network_config json_dumps store config =
          Except.error PyErr.nameError) ∧
    (∀ store : Option String,
        get_cached_network_config store = Except.error PyErr.nameError) := by
  constructor
  · intro json_dumps store config
    rfl
  · intro store
    rfl

/-- **C3** (claim: `is_vultr` is true whenever the `root=` region of the
kernel command line contains the token `vultr`).  Concrete refutation: the
command line `"a root=b vultr"` has `vultr` in its `root=` region, the
other two signals are off, and yet `is_vultr` returns `false` — the code
takes `re.sub(r'.+root=', '', content)[1]`, a single character (here the
space at index 1 of `"b vultr"`, stripped to `""`), so the substring test
`"vultr" in ...` can never succeed. -/
theorem is_vultr_misses_kernel_token_c3 :
    is_vultr { manufacturer := some "QEMU", subid := none, product := none,
               family := none }
      (some "a root=b vultr") false false = Except.ok false := by
  rfl

/-- **C4** (claim: `is_vultr` never raises for any contents of the kernel
command-line file).  Concrete refutation: with contents `"a root=b"`,
`re.sub(r'.+root=', '', content)` is the one-character string `"b"`, so the
indexing `[1]` raises `IndexError`, which propagates out of `is_vultr`. -/
theorem is_vultr_raises_index_error_c4 :
    is_vultr { manufacturer := some "GenuineIntel", subid := none,
               product := none, family := none }
      (some "a root=b") false false = Except.error PyErr.indexError := by
  rfl

/-- **C9 counterexample** (claim: two successive `get_interface_name` calls
with the same MAC perform the OS interface query at most once).  When the
OS reports an empty mapping, `MAC_TO_NICS` is set to the empty dict, which
is falsy, so `if not MAC_TO_NICS` rebuilds it on *every* call: starting
from an unset cache, two calls with MAC `"aa"` perform two OS queries. -/
theorem get_interface_name_two_queries_c9 :
    (get_interface_name [] none "aa").2.2 +
      (get_interface_name [] (get_interface_name [] none "aa").2.1
        "aa").2.2 = 2 := by
  rfl

/-- **C9 (amended)**: two successive calls with the same MAC always return
the same result, and perform the OS query at most once across the two calls
provided the OS mapping is non-empty (an empty mapping is falsy, so the
cache test `if not MAC_TO_NICS` treats it as unbuilt and queries again). -/
theorem get_interface_name_memoized_c9
    (os_query : List (String × String))
    (st : Option (List (String × String))) (mac : String) :
    (get_interface_name os_query st mac).1 =
      (get_interface_name os_query
        (get_interface_name os_query st mac).2.1 mac).1 ∧
    (os_query ≠ [] →
      (get_interface_name os_query st mac).2.2 +
        (get_interface_name os_query
          (get_interface_name os_query st mac).2.1 mac).2.2 ≤ 1) := by
  rcases st with _ | m
  · rcases hq : os_query with _ | ⟨p, rest⟩
    · simp [get_interface_name]
    · simp [get_interface_name]
  · rcases hm : m with _ | ⟨p, rest⟩
    · rcases hq : os_query with _ | ⟨q, rest'⟩
      · simp [get_interface_name]
      · simp [get_interface_name]
    · simp [get_interface_name]

/-- **C9 witness**: with OS mapping `[("aa", "eth0")]`, an unset cache and
MAC `"aa"`, the two calls agree and perform at most one OS query. -/
theorem get_interface_name_memoized_c9_witness :
    (get_interface_name [("aa", "eth0")] none "aa").1 =
      (get_interface_name [("aa", "eth0")]
        (get_interface_name [("aa", "eth0")] none "aa").2.1 "aa").1 ∧
    (get_interface_name [("aa", "eth0")] none "aa").2.2 +
      (get_interface_name [("aa", "eth0")]
        (get_interface_name [("aa", "eth0")] none "aa").2.1 "aa").2.2 ≤ 1 := by
  have h := get_interface_name_memoized_c9 [("aa", "eth0")] none "aa"
  exact ⟨h.1, h.2 (by simp)⟩

/-- If the script is non-empty and not pure ASCII, `generate_config` raises
`UnicodeEncodeError` at the `script.encode("ascii")` step, before network
synthesis. -/
lemma generate_config_nonascii (nics : List (String × String)) (md : Metadata)
    (h1 : md.startup_script ≠ "") (h2 : isAscii md.startup_script = false) :
    generate_config nics md = Except.error PyErr.unicodeEncodeError := by
  simp only [generate_config, b64encode_ascii, h2, if_pos h1, if_neg,
    Bool.false_eq_true, ite_false]
  rfl

/-- **C10**: `generate_config` returns a document only when the startup
script is empty or pure ASCII; a non-empty script with a character outside
the ASCII range makes the `encode("ascii")` step raise, so `generate_config`
raises instead of producing a document. -/
theorem generate_config_ascii_only_c10 (nics : List (String × String))
    (md : Metadata) :
    (md.startup_script ≠ "" → isAscii md.startup_script = false →
      generate_config nics md = Except.error PyErr.unicodeEncodeError) ∧
    (∀ doc, generate_config nics md = Except.ok doc →
      md.startup_script = "" ∨ isAscii md.startup_script = true) := by
  refine ⟨fun h1 h2 => generate_config_nonascii nics md h1 h2, ?_⟩
  intro doc hok
  by_cases h1 : md.startup_script = ""
  · exact Or.inl h1
  · by_cases h2 : isAscii md.startup_script = true
    · exact Or.inr h2
    · rw [generate_config_nonascii nics md h1 (by simpa using h2)] at hok
      exact absurd hok (by simp)

/-- **C10 witness**: the script `"héllo"` is non-empty and non-ASCII, and
`generate_config` raises `UnicodeEncodeError` on it. -/
theorem generate_config_ascii_only_c10_witness :
    generate_config []
      { startup_script := "héllo", hostname := "", user_data := "",
        mdisk_mode := "", root_password := "", ssh_keys := "",
        ipv6_dns1 := "", ipv6_addr := "", v1 := ⟨[]⟩ } =
      Except.error PyErr.unicodeEncodeError :=
  (generate_config_ascii_only_c10 []
    { startup_script := "héllo", hostname := "", user_data := "",
      mdisk_mode := "", root_password := "", ssh_keys := "",
      ipv6_dns1 := "", ipv6_addr := "", v1 := ⟨[]⟩ }).1
    (by decide) (by decide)

/-- Base64 of a non-empty byte list is non-empty. -/
lemma b64encodeBytes_ne_nil : ∀ l : List Nat, l ≠ [] → b64encodeBytes l ≠ []
  | [], h => absurd rfl h
  | [_], _ => by simp [b64encodeBytes]
  | [_, _], _ => by simp [b64encodeBytes]
  | _ :: _ :: _ :: _, _ => by simp [b64encodeBytes]

/-- On a non-empty ASCII string, `b64encode_ascii` succeeds with a
non-empty result. -/
lemma b64encode_ascii_ok (s : String) (hs : s ≠ "")
    (ha : isAscii s = true) :
    ∃ e, b64encode_ascii s = Except.ok e ∧ e ≠ "" := by
  refine ⟨String.mk (b64encodeBytes (s.data.map Char.toNat)), ?_, ?_⟩
  · simp [b64encode_ascii, ha]
  · intro hc
    have hdata : (String.mk (b64encodeBytes (s.data.map Char.toNat))).data =
        ("" : String).data := by rw [hc]
    have hnil : b64encodeBytes (s.data.map Char.toNat) = [] := hdata
    have hne : s.data.map Char.toNat ≠ [] := by
      intro hmap
      have hd : s.data = [] := by simpa using hmap
      exact hs (String.ext (hd.trans rfl))
    exact b64encodeBytes_ne_nil _ hne hnil

/-- **C1** (claim: a non-empty startup script makes `generate_config` emit
the `write_files` directive plus the two `runcmd` entries).  In fact, for
every bundle with a non-empty ASCII startup script whose network synthesis
succeeds, `generate_config` raises `KeyError`: the base `config_template`
literal has no `"runcmd"` key, so the append
`config_template['runcmd'] = config_template['runcmd'] + [...]` reads a
missing key.  (The unit tests expect a base `"runcmd": []` entry, which the
template does not create.) -/
theorem generate_config_keyerror_c1 (nics : List (String × String))
    (md : Metadata) (doc : NetworkConfig)
    (h1 : md.startup_script ≠ "") (h2 : isAscii md.startup_script = true)
    (h3 : generate_network_config nics md = Except.ok doc) :
    generate_config nics md = Except.error PyErr.keyError := by
  obtain ⟨e, hb, he⟩ := b64encode_ascii_ok md.startup_script h1 h2
  simp only [generate_config, h1, hb, h3, ne_eq, not_false_iff, if_true,
    ite_not]
  simp [Except.bind, h1, hb, h3, he, Bind.bind]
  rfl

/-- **C1 witness**: a concrete bundle with startup script `"echo hi"`, no
interfaces, and an empty MAC mapping; `generate_config` raises
`KeyError`. -/
theorem generate_config_keyerror_c1_witness :
    generate_config []
      { startup_script := "echo hi", hostname := "", user_data := "",
        mdisk_mode := "", root_password := "pw", ssh_keys := "",
        ipv6_dns1 := "", ipv6_addr := "", v1 := ⟨[]⟩ } =
      Except.error PyErr.keyError :=
  generate_config_keyerror_c1 []
    { startup_script := "echo hi", hostname := "", user_data := "",
      mdisk_mode := "", root_password := "pw", ssh_keys := "",
      ipv6_dns1 := "", ipv6_addr := "", v1 := ⟨[]⟩ }
    { version := 1, config := [NetBlock.nameserver ["108.61.10.10"]] }
    (by decide) (by decide) rfl

/-- Every endpoint path in `API_MAP` is non-empty. -/
lemma API_MAP_path_ne_empty : ∀ p ∈ API_MAP, p.2 ≠ "" := by decide

/-- String append with a non-empty right factor is non-empty. -/
lemma append_ne_empty_right (a b : String) (h : b ≠ "") : a ++ b ≠ "" := by
  intro hc
  apply h
  have hd : (a ++ b).data = ([] : List Char) := by rw [hc]
  rw [String.data_append] at hd
  exact String.ext ((List.append_eq_nil.mp hd).2.trans rfl)

/-- String append with a non-empty left factor is non-empty. -/
lemma append_ne_empty_left (a b : String) (h : a ≠ "") : a ++ b ≠ "" := by
  intro hc
  apply h
  have hd : (a ++ b).data = ([] : List Char) := by rw [hc]
  rw [String.data_append] at hd
  exact String.ext ((List.append_eq_nil.mp hd).1.trans rfl)

/-- **C5 counterexample** (claim: a network request happens exactly when
the field is one of the nine fixed keys or *carries the prefix* `app-` or
`md-`).  The field `"amd-x"` starts with neither prefix and is not in
`API_MAP`, yet the code performs a network request for it: `get_url` tests
substring containment (`"md-" in flag`), not prefixes. -/
theorem fetch_metadata_substring_not_prefix_c5 :
    listStartsWith "app-".data "amd-x".data = false ∧
    listStartsWith "md-".data "amd-x".data = false ∧
    dictGet API_MAP "amd-x" = none ∧
    (fetch_metadata (fun _ => Except.ok "") "http://169.254.169.254"
        "amd-x").2 = ["http://169.254.169.254/v1/internal/amd-x"] := by
  refine ⟨by decide, by decide, by decide, rfl⟩

/-- **C5 (amended)**: `fetch_metadata` performs a network request exactly
when the field is one of the nine fixed `API_MAP` keys or *contains* the
substring `app-` or `md-` anywhere in its name (mapping to
`/v1/internal/{field}`); for any other field it fails immediately with a
`RuntimeError` and performs no network request. -/
theorem fetch_metadata_request_iff_c5 (http : String → Except PyErr String)
    (url flag : String) :
    ((fetch_metadata http url flag).2 ≠ [] ↔
      ((dictGet API_MAP flag).isSome = true ∨ pyIn "app-" flag = true ∨
        pyIn "md-" flag = true)) ∧
    (¬((dictGet API_MAP flag).isSome = true ∨ pyIn "app-" flag = true ∨
        pyIn "md-" flag = true) →
      fetch_metadata http url flag = (Except.error PyErr.runtimeError, [])) := by
  rcases hd : dictGet API_MAP flag with _ | path
  · rcases hb : pyIn "app-" flag with _ | _
    · rcases hc : pyIn "md-" flag with _ | _
      · have hu : get_url url flag = "" := by
          simp [get_url, hd, hb, hc]
        constructor
        · simp [fetch_metadata, hu, hd, hb, hc]
        · intro _
          simp [fetch_metadata, hu]
      · have hne : get_url url flag ≠ "" := by
          simp only [get_url, hd, hb, hc]
          exact append_ne_empty_left _ _
            (append_ne_empty_right _ _ (by decide))
        constructor
        · simp [fetch_metadata, hne, hd, hb, hc]
        · intro hcon
          exact absurd (Or.inr (Or.inr rfl)) hcon
    · have hne : get_url url flag ≠ "" := by
        simp only [get_url, hd, hb]
        exact append_ne_empty_left _ _
          (append_ne_empty_right _ _ (by decide))
      constructor
      · simp [fetch_metadata, hne, hd, hb]
      · intro hcon
        exact absurd (Or.inr (Or.inl rfl)) hcon
  · obtain ⟨p, hfind, hp2⟩ := Option.map_eq_some'.mp hd
    have hmem : p ∈ API_MAP := List.mem_of_find?_eq_some hfind
    have hpath : path ≠ "" := hp2 ▸ API_MAP_path_ne_empty p hmem
    have hne : get_url url flag ≠ "" := by
      simp only [get_url, hd]
      exact append_ne_empty_right _ _ hpath
    constructor
    · simp [fetch_metadata, hne, hd]
    · intro hcon
      exact absurd (Or.inl (by simp [hd])) hcon

/-- **C5 witness**: the unrecognized field `"bogus"` fails with
`RuntimeError` and performs no network request. -/
theorem fetch_metadata_request_iff_c5_witness :
    fetch_metadata (fun _ => Except.ok "") "http://169.254.169.254" "bogus" =
      (Except.error PyErr.runtimeError, []) :=
  (fetch_metadata_request_iff_c5 (fun _ => Except.ok "")
    "http://169.254.169.254" "bogus").2 (by decide)

/-- **C6**: `get_metadata` is memoized atomically.  With a populated cache
it returns the cached bundle, leaves the cache unchanged, and performs zero
network requests; starting from an empty cache, if the assembly fails
nothing is cached, and if it succeeds exactly the returned bundle is
cached. -/
theorem get_metadata_memoized_c6 (http : String → Except PyErr String)
    (parse : String → Except PyErr V1Doc) (url : String) :
    (∀ md, get_metadata http parse url (some md) =
      ((Except.ok md, some md), 0)) ∧
    (∀ e, (get_metadata http parse url none).1.1 = Except.error e →
      (get_metadata http parse url none).1.2 = none) ∧
    (∀ md, (get_metadata http parse url none).1.1 = Except.ok md →
      (get_metadata http parse url none).1.2 = some md) := by
  refine ⟨fun md => rfl, ?_, ?_⟩
  · intro e h
    simp only [get_metadata] at h ⊢
    rcases hr : (assemble_metadata http parse url).run.run 0 with ⟨r, n⟩
    rw [hr] at h
    cases r with
    | ok md => simp at h
    | error e' => simp
  · intro md h
    simp only [get_metadata] at h ⊢
    rcases hr : (assemble_metadata http parse url).run.run 0 with ⟨r, n⟩
    rw [hr] at h
    cases r with
    | ok md' => simp_all
    | error e' => simp at h

/-- **C6 witness**: with a transport returning `"x"` for every field and a
parser returning the empty interface list, a first call on the empty cache
caches exactly the bundle it returns. -/
theorem get_metadata_memoized_c6_witness :
    (get_metadata (fun _ => Except.ok "x")
        (fun _ => Except.ok ⟨[]⟩) "u" none).1.2 =
      some { startup_script := "x", hostname := "x", user_data := "x",
             mdisk_mode := "x", root_password := "x", ssh_keys := "x",
             ipv6_dns1 := "x", ipv6_addr := "x", v1 := ⟨[]⟩ } :=
  (get_metadata_memoized_c6 (fun _ => Except.ok "x")
    (fun _ => Except.ok ⟨[]⟩) "u").2.2 _ rfl

/-- A truthy resolution: the MAC is present in the mapping *and* maps to a
non-empty name, i.e. `if not interface_name` does not fire. -/
lemma lookupMac_truthy {nics : List (String × String)} {mac : String}
    (h : (lookupMac nics mac).getD "" ≠ "") :
    ∃ n, lookupMac nics mac = some n ∧ n ≠ "" := by
  cases hl : lookupMac nics mac with
  | none => rw [hl] at h; simp at h
  | some n =>
      refine ⟨n, rfl, ?_⟩
      rw [hl] at h
      simpa using h

/-- **C7**: when the MACs of the first (at most) two interfaces resolve,
`generate_network_config` succeeds and its block list is exactly the
nameserver block `108.61.10.10` first, then one physical block per
interface at index 0 and 1; an empty interface list yields exactly the
nameserver block, and interfaces beyond index 1 never influence the
output (truncating the list to its first two entries gives the same
document). -/
theorem generate_network_config_blocks_c7 (nics : List (String × String))
    (md : Metadata)
    (h : ∀ i ∈ md.v1.interfaces.take 2, (lookupMac nics i.mac).getD "" ≠ "") :
    ∃ doc, generate_network_config nics md = Except.ok doc ∧
      doc.version = 1 ∧
      doc.config.length = 1 + min md.v1.interfaces.length 2 ∧
      doc.config.head? = some (NetBlock.nameserver ["108.61.10.10"]) ∧
      (md.v1.interfaces = [] →
        doc.config = [NetBlock.nameserver ["108.61.10.10"]]) ∧
      generate_network_config nics
        { md with v1 := ⟨md.v1.interfaces.take 2⟩ } =
        generate_network_config nics md := by
  rcases hint : md.v1.interfaces with _ | ⟨i0, _ | ⟨i1, rest⟩⟩
  · exact ⟨⟨1, [NetBlock.nameserver ["108.61.10.10"]]⟩,
      by simp [generate_network_config, hint]; rfl,
      rfl, by simp [hint], rfl, fun _ => rfl,
      by simp [generate_network_config, hint]⟩
  · obtain ⟨n0, hn0, hne0⟩ := lookupMac_truthy (h i0 (by simp [hint]))
    refine ⟨⟨1, [NetBlock.nameserver ["108.61.10.10"],
      NetBlock.physical n0 i0.mac 1 [primary_v4_subnet i0, dhcp6_subnet]]⟩,
      ?_, rfl, by simp [hint], rfl, ?_, ?_⟩
    · simp [generate_network_config, hint, hn0, hne0]
      rfl
    · intro he
      simp at he
    · simp [generate_network_config, hint, hn0, hne0]
  · obtain ⟨n0, hn0, hne0⟩ := lookupMac_truthy (h i0 (by simp [hint]))
    obtain ⟨n1, hn1, hne1⟩ := lookupMac_truthy (h i1 (by simp [hint]))
    refine ⟨⟨1, [NetBlock.nameserver ["108.61.10.10"],
      NetBlock.physical n0 i0.mac 1 [primary_v4_subnet i0, dhcp6_subnet],
      NetBlock.physical n1 i1.mac 1 [secondary_v4_subnet i1]]⟩,
      ?_, rfl, by simp [hint], rfl, ?_, ?_⟩
    · simp [generate_network_config, hint, hn0, hne0, hn1, hne1]
      rfl
    · intro he
      simp at he
    · simp [generate_network_config, hint, hn0, hne0, hn1, hne1]

/-- **C7 witness**: two resolvable interfaces (the unit-test data) give the
nameserver block plus two physical blocks, and the truncation invariance
holds. -/
theorem generate_network_config_blocks_c7_witness :
    ∃ doc, generate_network_config
        [("56:00:03:1b:4e:ca", "eth0"), ("5a:00:03:1b:4e:ca", "eth1")]
        { startup_script := "", hostname := "", user_data := "",
          mdisk_mode := "", root_password := "hunter2", ssh_keys := "",
          ipv6_dns1 := "", ipv6_addr := "",
          v1 := ⟨[⟨"56:00:03:1b:4e:ca",
                    ⟨"45.76.7.171", "45.76.6.1", "255.255.254.0"⟩⟩,
                  ⟨"5a:00:03:1b:4e:ca",
                    ⟨"10.1.112.3", "", "255.255.240.0"⟩⟩]⟩ } =
        Except.ok doc ∧
      doc.version = 1 ∧
      doc.config.length = 1 + min 2 2 ∧
      doc.config.head? = some (NetBlock.nameserver ["108.61.10.10"]) ∧
      ([⟨"56:00:03:1b:4e:ca", ⟨"45.76.7.171", "45.76.6.1", "255.255.254.0"⟩⟩,
        ⟨"5a:00:03:1b:4e:ca", ⟨"10.1.112.3", "", "255.255.240.0"⟩⟩] =
          ([] : List Interface) →
        doc.config = [NetBlock.nameserver ["108.61.10.10"]]) ∧
      generate_network_config
        [("56:00:03:1b:4e:ca", "eth0"), ("5a:00:03:1b:4e:ca", "eth1")]
        { startup_script := "", hostname := "", user_data := "",
          mdisk_mode := "", root_password := "hunter2", ssh_keys := "",
          ipv6_dns1 := "", ipv6_addr := "",
          v1 := ⟨[⟨"56:00:03:1b:4e:ca",
                    ⟨"45.76.7.171", "45.76.6.1", "255.255.254.0"⟩⟩,
                  ⟨"5a:00:03:1b:4e:ca",
                    ⟨"10.1.112.3", "", "255.255.240.0"⟩⟩].take 2⟩ } =
        generate_network_config
          [("56:00:03:1b:4e:ca", "eth0"), ("5a:00:03:1b:4e:ca", "eth1")]
          { startup_script := "", hostname := "", user_data := "",
            mdisk_mode := "", root_password := "hunter2", ssh_keys := "",
            ipv6_dns1 := "", ipv6_addr := "",
            v1 := ⟨[⟨"56:00:03:1b:4e:ca",
                      ⟨"45.76.7.171", "45.76.6.1", "255.255.254.0"⟩⟩,
                    ⟨"5a:00:03:1b:4e:ca",
                      ⟨"10.1.112.3", "", "255.255.240.0"⟩⟩]⟩ } :=
  generate_network_config_blocks_c7
    [("56:00:03:1b:4e:ca", "eth0"), ("5a:00:03:1b:4e:ca", "eth1")]
    { startup_script := "", hostname := "", user_data := "",
      mdisk_mode := "", root_password := "hunter2", ssh_keys := "",
      ipv6_dns1 := "", ipv6_addr := "",
      v1 := ⟨[⟨"56:00:03:1b:4e:ca",
                ⟨"45.76.7.171", "45.76.6.1", "255.255.254.0"⟩⟩,
              ⟨"5a:00:03:1b:4e:ca",
                ⟨"10.1.112.3", "", "255.255.240.0"⟩⟩]⟩ }
    (by decide)

/-- **C8**: under the same resolution hypothesis, the primary physical
block (if any) has exactly two subnets — a static IPv4 subnet carrying
address, gateway and netmask verbatim from interface 0, then a dhcp6
subnet with no address, gateway or netmask — and the secondary physical
block (if any) has exactly one subnet, a static IPv4 subnet with address
and netmask but no gateway. -/
theorem generate_network_config_subnets_c8 (nics : List (String × String))
    (md : Metadata)
    (h : ∀ i ∈ md.v1.interfaces.take 2, (lookupMac nics i.mac).getD "" ≠ "") :
    ∃ doc, generate_network_config nics md = Except.ok doc ∧
      (∀ i0, md.v1.interfaces[0]? = some i0 →
        ∃ name, doc.config[1]? = some (NetBlock.physical name i0.mac 1
          [{ type := "static", control := "auto",
             address := some i0.ipv4.address,
             gateway := some i0.ipv4.gateway,
             netmask := some i0.ipv4.netmask },
           { type := "dhcp6", control := "auto", address := none,
             gateway := none, netmask := none }])) ∧
      (∀ i1, md.v1.interfaces[1]? = some i1 →
        ∃ name, doc.config[2]? = some (NetBlock.physical name i1.mac 1
          [{ type := "static", control := "auto",
             address := some i1.ipv4.address, gateway := none,
             netmask := some i1.ipv4.netmask }])) := by
  rcases hint : md.v1.interfaces with _ | ⟨i0, _ | ⟨i1, rest⟩⟩
  · exact ⟨⟨1, [NetBlock.nameserver ["108.61.10.10"]]⟩,
      by simp [generate_network_config, hint]; rfl,
      by simp [hint], by simp [hint]⟩
  · obtain ⟨n0, hn0, hne0⟩ := lookupMac_truthy (h i0 (by simp [hint]))
    refine ⟨⟨1, [NetBlock.nameserver ["108.61.10.10"],
      NetBlock.physical n0 i0.mac 1 [primary_v4_subnet i0, dhcp6_subnet]]⟩,
      by simp [generate_network_config, hint, hn0, hne0]; rfl, ?_, by simp [hint]⟩
    intro j0 hj0
    simp at hj0
    exact ⟨n0, by simp [← hj0, primary_v4_subnet, dhcp6_subnet]⟩
  · obtain ⟨n0, hn0, hne0⟩ := lookupMac_truthy (h i0 (by simp [hint]))
    obtain ⟨n1, hn1, hne1⟩ := lookupMac_truthy (h i1 (by simp [hint]))
    refine ⟨⟨1, [NetBlock.nameserver ["108.61.10.10"],
      NetBlock.physical n0 i0.mac 1 [primary_v4_subnet i0, dhcp6_subnet],
      NetBlock.physical n1 i1.mac 1 [secondary_v4_subnet i1]]⟩,
      by simp [generate_network_config, hint, hn0, hne0, hn1, hne1]; rfl, ?_, ?_⟩
    · intro j0 hj0
      simp at hj0
      exact ⟨n0, by simp [← hj0, primary_v4_subnet, dhcp6_subnet]⟩
    · intro j1 hj1
      simp at hj1
      exact ⟨n1, by simp [← hj1, secondary_v4_subnet]⟩

/-- **C8 witness**: on the unit-test two-interface bundle, the primary
block has the static-v4 + dhcp6 subnets with the verbatim gateway, and the
secondary block has one gateway-free static subnet. -/
theorem generate_network_config_subnets_c8_witness :
    ∃ doc, generate_network_config
        [("56:00:03:15:c4:65", "eth0"), ("5a:00:03:1b:4e:ca", "eth1")]
        { startup_script := "", hostname := "", user_data := "",
          mdisk_mode := "", root_password := "", ssh_keys := "",
          ipv6_dns1 := "", ipv6_addr := "",
          v1 := ⟨[⟨"56:00:03:15:c4:65",
                    ⟨"108.61.89.242", "108.61.89.1", "255.255.255.0"⟩⟩,
                  ⟨"5a:00:03:1b:4e:ca",
                    ⟨"10.1.112.3", "", "255.255.240.0"⟩⟩]⟩ } =
        Except.ok doc ∧
      (∃ name, doc.config[1]? = some (NetBlock.physical name
        "56:00:03:15:c4:65" 1
        [{ type := "static", control := "auto",
           address := some "108.61.89.242", gateway := some "108.61.89.1",
           netmask := some "255.255.255.0" },
         { type := "dhcp6", control := "auto", address := none,
           gateway := none, netmask := none }])) ∧
      (∃ name, doc.config[2]? = some (NetBlock.physical name
        "5a:00:03:1b:4e:ca" 1
        [{ type := "static", control := "auto",
           address := some "10.1.112.3", gateway := none,
           netmask := some "255.255.240.0" }])) := by
  obtain ⟨doc, hdoc, hp, hs⟩ := generate_network_config_subnets_c8
    [("56:00:03:15:c4:65", "eth0"), ("5a:00:03:1b:4e:ca", "eth1")]
    { startup_script := "", hostname := "", user_data := "",
      mdisk_mode := "", root_password := "", ssh_keys := "",
      ipv6_dns1 := "", ipv6_addr := "",
      v1 := ⟨[⟨"56:00:03:15:c4:65",
                ⟨"108.61.89.242", "108.61.89.1", "255.255.255.0"⟩⟩,
              ⟨"5a:00:03:1b:4e:ca",
                ⟨"10.1.112.3", "", "255.255.240.0"⟩⟩]⟩ }
    (by decide)
  exact ⟨doc, hdoc, hp _ rfl, hs _ rfl⟩

end VultrHelpers
